import Mathlib

/-!
Verification development for the grok-imagine-mcp server.

The definitions below are a shallow embedding of the TypeScript sources:
  * `src/imageStorage.ts`   : `sanitizeFilename`, `parseDataUrl`, `saveImage`
  * `src/imageRequestBridge.ts` : the `ImageRequestBridge` class
    (`requestImage`, `handleImageResponse`, `clearPendingRequests`,
    the pending-request map, the WebSocket connection set and the
    per-request timeout timers)
  * `src/mcpServer.ts`      : the `generate_image` tool handler

Conventions of the embedding:
  * JavaScript strings are Lean `String`s; character classes are expressed
    on Unicode code points via `Char.toNat`.
  * `Buffer` contents are `List Nat` (byte values).
  * Promise settlement is made observable: every call of a pending
    request's `resolve` / `reject` callback is appended to a chronological
    `settlements` log in the bridge state.  `setTimeout` / `clearTimeout`
    are modelled by a set of armed timer tokens (one timer per request, so
    the token is the request id); a timer can only fire while its token is
    armed, and `clearTimeout` removes the token.
  * File-system writes succeed; a write is recorded as a `(path, bytes)`
    pair.  Exceptions are modelled with `Except String`.
-/

/-! ### Filename sanitisation (`src/imageStorage.ts`, `sanitizeFilename`) -/

/-- Code points matched by the JavaScript regex class `\s`
(whitespace, used by `replace(/\s+/g, "_")`). -/
def isJsWhitespace (c : Char) : Bool :=
  let n := c.toNat
  n == 0x20 || n == 0x09 || n == 0x0A || n == 0x0D || n == 0x0B || n == 0x0C ||
  n == 0xA0 || n == 0x1680 || (decide (0x2000 ≤ n) && decide (n ≤ 0x200A)) ||
  n == 0x2028 || n == 0x2029 || n == 0x202F || n == 0x205F || n == 0x3000 || n == 0xFEFF

/-- Characters kept by `replace(/[^a-z0-9_-]/g, "")`: the class `[a-z0-9_-]`. -/
def isAllowedChar (c : Char) : Bool :=
  let n := c.toNat
  (decide (97 ≤ n) && decide (n ≤ 122)) || (decide (48 ≤ n) && decide (n ≤ 57)) ||
  n == 95 || n == 45

/-- `String.prototype.toLowerCase`, restricted to the ASCII range `A`-`Z`.
Known simplification: the full JS mapping also lowers a few non-ASCII
points into the kept alphabet (U+212A to `k`, U+0130 to `i` plus a
combining dot), which this model drops instead; the shape properties
proved about `sanitizeFilename` below hold either way. -/
def jsToLowerChar (c : Char) : Char :=
  if 65 ≤ c.toNat ∧ c.toNat ≤ 90 then Char.ofNat (c.toNat + 32) else c

/-- `replace(/\s+/g, "_")`: every maximal run of whitespace becomes a single
underscore.  The boolean flag records whether the previous character was
part of a whitespace run. -/
def collapseWsAux : Bool → List Char → List Char
  | _, [] => []
  | inRun, c :: cs =>
    if isJsWhitespace c then
      if inRun then collapseWsAux true cs else '_' :: collapseWsAux true cs
    else c :: collapseWsAux false cs

/-- `replace(/\s+/g, "_")` on a character list. -/
def collapseWs (l : List Char) : List Char :=
  collapseWsAux false l

/-- `sanitizeFilename` on the character list of the input string:
lowercase, collapse whitespace runs to `_`, strip characters outside
`[a-z0-9_-]`, truncate to 50 characters (`substring(0, 50)`). -/
def sanitizeList (l : List Char) : List Char :=
  (((l.map jsToLowerChar) |> collapseWs).filter isAllowedChar).take 50

/-- `sanitizeFilename` from `src/imageStorage.ts`. -/
def sanitizeFilename (text : String) : String :=
  ⟨sanitizeList text.data⟩

/-! ### Data-URL parsing (`src/imageStorage.ts`, `parseDataUrl`) -/

/-- `String.prototype.startsWith` (exact, case-sensitive). -/
def jsStartsWith (s pre : String) : Bool :=
  pre.data.isPrefixOf s.data

/-- ASCII letter, i.e. what `[a-z]` matches under the `/i` flag. -/
def isAsciiLetter (c : Char) : Bool :=
  let n := c.toNat
  (decide (65 ≤ n) && decide (n ≤ 90)) || (decide (97 ≤ n) && decide (n ≤ 122))

/-- JavaScript line terminators, the characters `.` does not match. -/
def isLineTerminator (c : Char) : Bool :=
  let n := c.toNat
  n == 0x0A || n == 0x0D || n == 0x2028 || n == 0x2029

/-- Consume a literal pattern case-insensitively (`/i` matching of literal
regex characters); returns the rest of the input on success. -/
def consumeCI : List Char → List Char → Option (List Char)
  | [], rest => some rest
  | _ :: _, [] => none
  | p :: ps, c :: cs =>
    if jsToLowerChar c == jsToLowerChar p then consumeCI ps cs else none

/-- The regex `/^data:image\/([a-z]+);base64,(.+)$/i` of `parseDataUrl`,
hand-compiled: literal prefix (case-insensitive), a maximal nonempty run
of ASCII letters as the format group, the literal `;base64,`
(case-insensitive), then a nonempty data group in which `.` forbids line
terminators, anchored at the end of the string.  Returns
`(format, base64Data)` on a match. -/
def dataUrlMatch (dataUrl : String) : Option (String × String) :=
  match consumeCI "data:image/".data dataUrl.data with
  | none => none
  | some afterPrefix =>
    let format := afterPrefix.takeWhile isAsciiLetter
    let afterFormat := afterPrefix.dropWhile isAsciiLetter
    if format.isEmpty then none
    else
      match consumeCI ";base64,".data afterFormat with
      | none => none
      | some dataPart =>
        if dataPart.isEmpty then none
        else if dataPart.all (fun c => !(isLineTerminator c)) then
          some (⟨format⟩, ⟨dataPart⟩)
        else none

/-- Value of a character under Bun's `Buffer.from(.., "base64")` decoder:
the standard base64 alphabet plus the RFC 4648 URL-safe alphabet
(`-` for 62, `_` for 63), which that decoder also accepts; `none` for
characters outside both alphabets. -/
def base64CharVal (c : Char) : Option Nat :=
  let n := c.toNat
  if 65 ≤ n ∧ n ≤ 90 then some (n - 65)
  else if 97 ≤ n ∧ n ≤ 122 then some (n - 71)
  else if 48 ≤ n ∧ n ≤ 57 then some (n + 4)
  else if n = 43 ∨ n = 45 then some 62
  else if n = 47 ∨ n = 95 then some 63
  else none

/-- Reassemble bytes from 6-bit values, a full quantum at a time; a final
partial quantum of 2 or 3 values yields 1 or 2 bytes. -/
def decodeBase64Groups : List Nat → List Nat
  | a :: b :: c :: d :: rest =>
    (a * 4 + b / 16) :: ((b % 16) * 16 + c / 4) :: ((c % 4) * 64 + d) ::
      decodeBase64Groups rest
  | [a, b, c] => [a * 4 + b / 16, (b % 16) * 16 + c / 4]
  | [a, b] => [a * 4 + b / 16]
  | _ => []

/-- `Buffer.from(base64Data, "base64")` under Bun: a forgiving decoder
that accepts both the standard and the URL-safe base64 alphabets, skips
characters outside them and never throws (the `try`/`catch` around it in
`parseDataUrl` is therefore unreachable). -/
def jsBase64Decode (s : String) : List Nat :=
  decodeBase64Groups (s.data.filterMap base64CharVal)

/-- `parseDataUrl` from `src/imageStorage.ts`: validate the prefix, match
the data-URL regex, decode the base64 body (which cannot fail). -/
def parseDataUrl (dataUrl : String) : Except String (String × List Nat) :=
  if !(jsStartsWith dataUrl "data:image/") then
    .error "Invalid data URL: must start with 'data:image/'"
  else
    match dataUrlMatch dataUrl with
    | none =>
      .error "Invalid data URL format: expected 'data:image/\x7bformat\x7d;base64,\x7bdata\x7d'"
    | some (format, base64Data) => .ok (format, jsBase64Decode base64Data)

/-! ### Image saving (`src/imageStorage.ts`, `saveImage`) -/

/-- The options record taken by `saveImage`. -/
structure SaveImageOptions where
  base64DataUrl : String
  folderPath : String
  prompt : String
deriving DecidableEq

/-- Result of a successful `saveImage`: the files written (path and byte
content, in write order) and the returned array of saved paths. -/
structure SaveResult where
  writes : List (String × List Nat)
  savedPaths : List String
deriving DecidableEq

/-- `path.join` for a directory without a trailing slash and a plain
filename (the only shape `saveImage` builds). -/
def joinPath (dir filename : String) : String :=
  dir ++ "/" ++ filename

/-- `saveImage` from `src/imageStorage.ts`.  `cwd` stands for
`process.cwd()` and `timestamp` for `Date.now()`.  Directory creation and
the two `Bun.write` calls are modelled as succeeding; each write is
recorded.  Thrown errors are the `Except.error` cases. -/
def saveImage (options : SaveImageOptions) (cwd : String) (timestamp : Nat) :
    Except String SaveResult :=
  if !(jsStartsWith options.folderPath "/") then
    .error ("Folder path must be absolute: " ++ options.folderPath)
  else
    match parseDataUrl options.base64DataUrl with
    | .error e => .error e
    | .ok (format, data) =>
      let sanitizedPrompt :=
        if sanitizeFilename options.prompt = "" then "image"
        else sanitizeFilename options.prompt
      let filename := sanitizedPrompt ++ "_" ++ toString timestamp ++ "." ++ format
      let rootPath := joinPath cwd filename
      let userPath := joinPath options.folderPath filename
      .ok { writes := [(rootPath, data), (userPath, data)],
            savedPaths := [rootPath, userPath] }

/-! ### The request/response bridge (`src/imageRequestBridge.ts`) -/

/-- The `ImageResult` interface: what a pending request's promise resolves
with. -/
structure ImageResult where
  success : Bool
  imageData : Option String
  error : Option String
deriving DecidableEq

/-- The `ImageResponse` interface: an inbound envelope from a worker. -/
structure ImageResponse where
  type : String
  requestId : String
  success : Bool
  imageData : Option String
  error : Option String
deriving DecidableEq

/-- The `PendingRequest` interface.  `resolve` / `reject` are modelled via
the bridge state's `settlements` log; `timeout` is the token of the armed
timer (the timer created by `setTimeout` for this request). -/
structure PendingRequest where
  timeout : String
  prompt : String
  folderPath : String
deriving DecidableEq

/-- The `ImageRequest` interface passed to `sendImageRequest`. -/
structure ImageRequest where
  requestId : String
  prompt : String
  folderPath : String
  timestamp : Nat
deriving DecidableEq

/-- The JSON object built by `sendImageRequest` and serialised with
`JSON.stringify`: exactly the four properties of the object literal. -/
structure FanoutMessage where
  type : String
  requestId : String
  prompt : String
  timestamp : Nat
deriving DecidableEq

/-- The property names of the fan-out JSON object, in the insertion order
`JSON.stringify` serialises them. -/
def fanoutMessageFields : List String :=
  ["type", "requestId", "prompt", "timestamp"]

/-- One settlement of a pending request's promise: a call of its `resolve`
(with an `ImageResult`) or of its `reject` (with an `Error` message). -/
inductive Settlement where
  | resolved : ImageResult → Settlement
  | rejected : String → Settlement
deriving DecidableEq

/-- State of the `ImageRequestBridge` singleton, together with the
observable effects that the claims are about. -/
structure BridgeState where
  /-- `pendingRequests : Map<string, PendingRequest>`, in insertion order. -/
  pendingRequests : List (String × PendingRequest)
  /-- `wsConnections : Set<ServerWebSocket>`, connections as opaque handles. -/
  wsConnections : List String
  /-- Tokens of armed timers: created by `setTimeout`, removed by
  `clearTimeout` and consumed when the timer fires. -/
  activeTimers : List String
  /-- Chronological log of every `resolve` / `reject` call, keyed by the
  request id that the callbacks were created for. -/
  settlements : List (String × Settlement)
  /-- Log of `ws.send` calls: (connection, message) in send order. -/
  sentMessages : List (String × FanoutMessage)
  /-- `REQUEST_TIMEOUT` in milliseconds (60000 unless overridden by the
  `IMAGE_REQUEST_TIMEOUT` environment variable). -/
  requestTimeout : Nat
deriving DecidableEq

/-- `Map.get` on the pending-request map. -/
def mapLookup (k : String) : List (String × PendingRequest) → Option PendingRequest
  | [] => none
  | kv :: rest => if kv.1 == k then some kv.2 else mapLookup k rest

/-- `Map.delete` on the pending-request map. -/
def mapErase (k : String) (l : List (String × PendingRequest)) :
    List (String × PendingRequest) :=
  l.filter (fun kv => !(kv.1 == k))

/-- `hasConnectedClients`: `wsConnections.size > 0`. -/
def hasConnectedClients (s : BridgeState) : Bool :=
  decide (0 < s.wsConnections.length)

/-- `sendImageRequest`: build the fan-out JSON message and send it to every
currently connected client.  A failed `send` is caught and logged in the
source and does not abort the loop; sends are modelled as succeeding. -/
def sendImageRequest (request : ImageRequest) (s : BridgeState) : BridgeState :=
  let message : FanoutMessage :=
    { type := "requestImage", requestId := request.requestId,
      prompt := request.prompt, timestamp := request.timestamp }
  { s with sentMessages :=
      s.sentMessages ++ s.wsConnections.map (fun ws => (ws, message)) }

/-- `requestImage(prompt, folderPath)`.  `requestId` stands for the value
of `crypto.randomUUID()` and `timestamp` for `Date.now()`.  With no
connected client it throws `"No WebSocket clients connected"` and changes
nothing; otherwise it arms the timeout, stores the pending request and
fans the request out.  The returned promise is observed through the
`settlements` log. -/
def requestImage (prompt folderPath : String) (requestId : String)
    (timestamp : Nat) (s : BridgeState) : Except String Unit × BridgeState :=
  if !(hasConnectedClients s) then
    (.error "No WebSocket clients connected", s)
  else
    let afterTimer := { s with activeTimers := s.activeTimers ++ [requestId] }
    let afterPending :=
      { afterTimer with pendingRequests := afterTimer.pendingRequests ++
          [(requestId, { timeout := requestId, prompt := prompt,
                         folderPath := folderPath })] }
    (.ok (), sendImageRequest
      { requestId := requestId, prompt := prompt, folderPath := folderPath,
        timestamp := timestamp } afterPending)

/-- The message of the `Error` rejected by the timeout callback. -/
def timeoutMessage (ms : Nat) : String :=
  "Image request timed out after " ++ toString ms ++ "ms"

/-- The timeout callback armed by `requestImage`: it can only run while its
timer is armed (not cleared); it deletes the pending request and rejects
the promise with the timeout error. -/
def fireTimeout (requestId : String) (s : BridgeState) : BridgeState :=
  if requestId ∈ s.activeTimers then
    { s with
      activeTimers := s.activeTimers.erase requestId,
      pendingRequests := mapErase requestId s.pendingRequests,
      settlements := s.settlements ++
        [(requestId, .rejected (timeoutMessage s.requestTimeout))] }
  else s

/-- JavaScript truthiness of `response.imageData` (an optional string):
present and nonempty. -/
def jsTruthyOpt : Option String → Bool
  | some str => !(str == "")
  | none => false

/-- JavaScript `a || b` on an optional string `a`: the fallback is taken
when the string is absent OR empty (the empty string is falsy). -/
def jsOrElse : Option String → String → String
  | some str, fallback => if str == "" then fallback else str
  | none, fallback => fallback

/-- `handleImageResponse(response)`.  Unknown ids are logged and ignored;
otherwise the timeout is cleared, the entry removed, and the promise
resolved with success (for a truthy `imageData` on success) or with a
failure result carrying `response.error || "Unknown error occurred"`. -/
def handleImageResponse (response : ImageResponse) (s : BridgeState) : BridgeState :=
  match mapLookup response.requestId s.pendingRequests with
  | none => s
  | some pending =>
    let afterClear := { s with activeTimers := s.activeTimers.erase pending.timeout }
    let afterDelete :=
      { afterClear with
        pendingRequests := mapErase response.requestId afterClear.pendingRequests }
    if response.success && jsTruthyOpt response.imageData then
      { afterDelete with settlements := afterDelete.settlements ++
          [(response.requestId,
            .resolved { success := true, imageData := response.imageData,
                        error := none })] }
    else
      { afterDelete with settlements := afterDelete.settlements ++
          [(response.requestId,
            .resolved { success := false, imageData := none,
                        error := some (jsOrElse response.error "Unknown error occurred") })] }

/-- `clearPendingRequests()`: for every pending request (in map order)
clear its timeout and reject its promise with `"Bridge shutting down"`,
then clear the map. -/
def clearPendingRequests (s : BridgeState) : BridgeState :=
  { s with
    activeTimers :=
      s.pendingRequests.foldl (fun ts kv => ts.erase kv.2.timeout) s.activeTimers,
    settlements := s.settlements ++
      s.pendingRequests.map (fun kv => (kv.1, Settlement.rejected "Bridge shutting down")),
    pendingRequests := [] }

/-! ### Interleaved events on the bridge -/

/-- An event processed by the single-threaded event loop: delivery of a
response envelope to `handleImageResponse`, or the firing of an armed
request timeout. -/
inductive BridgeEvent where
  | response : ImageResponse → BridgeEvent
  | timerFire : String → BridgeEvent
deriving DecidableEq

/-- Process one event. -/
def stepEvent (s : BridgeState) (e : BridgeEvent) : BridgeState :=
  match e with
  | .response r => handleImageResponse r s
  | .timerFire requestId => fireTimeout requestId s

/-- Process a sequence of events in delivery order. -/
def runEvents (s : BridgeState) (events : List BridgeEvent) : BridgeState :=
  events.foldl stepEvent s

/-- The settlements recorded for one request id, in order. -/
def settlementsFor (requestId : String) (s : BridgeState) : List (String × Settlement) :=
  s.settlements.filter (fun kv => kv.1 == requestId)

/-- An event that can settle the request `requestId`: a response envelope
carrying its id, or its timeout firing. -/
def isQualifying (requestId : String) : BridgeEvent → Bool
  | .response r => r.requestId == requestId
  | .timerFire t => t == requestId

/-- A response envelope carrying the id `requestId`. -/
def isRidResponse (requestId : String) : BridgeEvent → Bool
  | .response r => r.requestId == requestId
  | .timerFire _ => false

/-- The settlement `handleImageResponse` produces for a pending request. -/
def settlementOfResponse (r : ImageResponse) : Settlement :=
  if r.success && jsTruthyOpt r.imageData then
    .resolved { success := true, imageData := r.imageData, error := none }
  else
    .resolved { success := false, imageData := none,
                error := some (jsOrElse r.error "Unknown error occurred") }

/-- The settlement produced by a qualifying event. -/
def settlementOfEvent (timeoutMs : Nat) : BridgeEvent → Settlement
  | .response r => settlementOfResponse r
  | .timerFire _ => .rejected (timeoutMessage timeoutMs)

/-! ### The `generate_image` tool handler (`src/mcpServer.ts`) -/

/-- The MCP tool reply: its text content and the `isError` flag. -/
structure McpResponse where
  text : String
  isError : Bool
deriving DecidableEq

/-- The `generate_image` handler.  `bridgeResult` is the outcome of
`await imageBridge.requestImage(...)` (`Except.error` for a rejected
promise); `cwd` and `timestamp` parameterise the `saveImage` call.  The
`aspectRatio` argument is accepted by the tool schema and passed through
(the bridge ignores it). -/
def generateImage (prompt folderPath aspectRatio : String)
    (bridgeResult : Except String ImageResult) (cwd : String) (timestamp : Nat) :
    McpResponse :=
  match bridgeResult with
  | .error msg => { text := "Error: " ++ msg, isError := true }
  | .ok result =>
    if !result.success then
      { text := "Error: " ++ result.error.getD "undefined", isError := true }
    else
      match saveImage
          { base64DataUrl := result.imageData.getD "undefined",
            folderPath := folderPath, prompt := prompt } cwd timestamp with
      | .error msg => { text := "Error: " ++ msg, isError := true }
      | .ok r =>
        { text := "Image saved to:\n" ++
            String.intercalate "\n" (r.savedPaths.map (fun p => "- " ++ p)),
          isError := false }

/-! ### Shared helper lemmas and example states -/

/-- The filename `saveImage` builds:
`<sanitized-prompt>_<timestamp>.<format>`, with base `"image"` when
sanitising the prompt yields the empty string. -/
def saveFilename (prompt : String) (timestamp : Nat) (format : String) : String :=
  (if sanitizeFilename prompt = "" then "image" else sanitizeFilename prompt) ++
    "_" ++ toString timestamp ++ "." ++ format

/-- On an absolute folder path and a payload accepted by `parseDataUrl`,
`saveImage` writes the decoded bytes twice under the same filename and
returns the two paths, project root first. -/
theorem saveImage_spec (prompt folderPath dataUrl cwd : String) (timestamp : Nat)
    (format : String) (data : List Nat)
    (habs : jsStartsWith folderPath "/" = true)
    (hparse : parseDataUrl dataUrl = .ok (format, data)) :
    saveImage { base64DataUrl := dataUrl, folderPath := folderPath, prompt := prompt }
        cwd timestamp =
      .ok { writes := [(joinPath cwd (saveFilename prompt timestamp format), data),
                       (joinPath folderPath (saveFilename prompt timestamp format), data)],
            savedPaths := [joinPath cwd (saveFilename prompt timestamp format),
                           joinPath folderPath (saveFilename prompt timestamp format)] } := by
  simp [saveImage, habs, hparse, saveFilename]

/-- A bridge state with no connected worker. -/
def exEmptyBridge : BridgeState :=
  { pendingRequests := [], wsConnections := [], activeTimers := [],
    settlements := [], sentMessages := [], requestTimeout := 60000 }

/-- A bridge state with one connected worker and nothing pending. -/
def exOneClientBridge : BridgeState :=
  { pendingRequests := [], wsConnections := ["c1"], activeTimers := [],
    settlements := [], sentMessages := [], requestTimeout := 60000 }

/-- A bridge state with one connected worker and one pending request
`"r1"` whose timeout is armed. -/
def exPendingBridge : BridgeState :=
  { pendingRequests := [("r1", { timeout := "r1", prompt := "a cat", folderPath := "/out" })],
    wsConnections := ["c1"], activeTimers := ["r1"],
    settlements := [], sentMessages := [], requestTimeout := 60000 }

/-! ### Claim C2 -/

/-- Claim C2: a `requestImage` call made while the worker connection set is
empty fails synchronously with the `NoWorkersAvailable` error
(`"No WebSocket clients connected"`), and the state is unchanged: no
`PendingRequest` is added to the pending map and no timeout timer is
armed. -/
theorem requestImage_noWorkers (s : BridgeState) (prompt folderPath requestId : String)
    (timestamp : Nat) (h : s.wsConnections = []) :
    requestImage prompt folderPath requestId timestamp s =
      (.error "No WebSocket clients connected", s) := by
  simp [requestImage, hasConnectedClients, h]

/-- Witness for C2 at a concrete empty-pool state. -/
theorem requestImage_noWorkers_witness :
    requestImage "a cat" "/out" "r1" 5 exEmptyBridge =
      (.error "No WebSocket clients connected", exEmptyBridge) :=
  requestImage_noWorkers exEmptyBridge "a cat" "/out" "r1" 5 rfl

/-! ### Claim C3 -/

/-- Claim C3: an envelope whose `requestId` is not in the pending map
leaves the whole bridge state (pending map, settlements, armed timers,
everything) unchanged; `handleImageResponse` is total, so no exception is
raised, and its only real-world effect is a log line. -/
theorem handleResponse_unknownId_noop (s : BridgeState) (response : ImageResponse)
    (h : mapLookup response.requestId s.pendingRequests = none) :
    handleImageResponse response s = s := by
  simp [handleImageResponse, h]

/-- Witness for C3: a foreign id against a state with a pending request. -/
theorem handleResponse_unknownId_noop_witness :
    handleImageResponse
      { type := "imageResponse", requestId := "zz", success := true,
        imageData := some "data", error := none } exPendingBridge = exPendingBridge :=
  handleResponse_unknownId_noop exPendingBridge
    { type := "imageResponse", requestId := "zz", success := true,
      imageData := some "data", error := none } (by decide)

/-! ### Claim C5 -/

/-- Counterexample to C5 as stated: an envelope with `success = false` and
no error string settles the request with the text
`"Unknown error occurred"`, not the claimed text `"unknown error"`. -/
theorem handleResponse_errorText_counterexample :
    (handleImageResponse
        { type := "imageResponse", requestId := "r1", success := false,
          imageData := none, error := none } exPendingBridge).settlements =
      [("r1", .resolved { success := false, imageData := none,
                          error := some "Unknown error occurred" })] ∧
    "Unknown error occurred" ≠ "unknown error" := by decide

/-- Claim C5 (amended: the fallback text is `"Unknown error occurred"`,
and — as JavaScript `||` does — it is used whenever the envelope's error
string is absent OR empty; the payload is the envelope's single
`imageData` string): a pending envelope settles as success carrying
exactly its payload when the success flag is set and the payload is
present and nonempty; in every other case it settles as a failure result
carrying the envelope's error string when that is present and nonempty,
and the text `"Unknown error occurred"` otherwise. -/
theorem handleResponse_settlement (s : BridgeState) (response : ImageResponse)
    (pending : PendingRequest)
    (h : mapLookup response.requestId s.pendingRequests = some pending) :
    (response.success = true → jsTruthyOpt response.imageData = true →
      (handleImageResponse response s).settlements = s.settlements ++
        [(response.requestId,
          .resolved { success := true, imageData := response.imageData, error := none })]) ∧
    (response.success = false ∨ jsTruthyOpt response.imageData = false →
      (∀ msg, response.error = some msg → msg ≠ "" →
        (handleImageResponse response s).settlements = s.settlements ++
          [(response.requestId,
            .resolved { success := false, imageData := none, error := some msg })]) ∧
      ((response.error = none ∨ response.error = some "") →
        (handleImageResponse response s).settlements = s.settlements ++
          [(response.requestId,
            .resolved { success := false, imageData := none,
                        error := some "Unknown error occurred" })])) := by
  constructor
  · intro hs hd
    simp [handleImageResponse, h, hs, hd]
  · intro hfail
    have hcond : (response.success && jsTruthyOpt response.imageData) = false := by
      rcases hfail with hs | hd
      · simp [hs]
      · simp [hd]
    constructor
    · intro msg hmsg hne
      simp [handleImageResponse, h, hcond, jsOrElse, hmsg, hne]
    · intro hnone
      rcases hnone with hn | he
      · simp [handleImageResponse, h, hcond, jsOrElse, hn]
      · simp [handleImageResponse, h, hcond, jsOrElse, he]

/-- Witness for C5: a concrete success envelope, a failure envelope with a
nonempty error string, and a failure envelope with an EMPTY error string,
which falls back to `"Unknown error occurred"` exactly as `||` does. -/
theorem handleResponse_settlement_witness :
    (handleImageResponse
        { type := "imageResponse", requestId := "r1", success := true,
          imageData := some "data:image/png;base64,AAAA", error := none }
        exPendingBridge).settlements =
      [("r1", .resolved { success := true,
                          imageData := some "data:image/png;base64,AAAA",
                          error := none })] ∧
    (handleImageResponse
        { type := "imageResponse", requestId := "r1", success := false,
          imageData := none, error := some "boom" }
        exPendingBridge).settlements =
      [("r1", .resolved { success := false, imageData := none, error := some "boom" })] ∧
    (handleImageResponse
        { type := "imageResponse", requestId := "r1", success := false,
          imageData := none, error := some "" }
        exPendingBridge).settlements =
      [("r1", .resolved { success := false, imageData := none,
                          error := some "Unknown error occurred" })] := by
  refine ⟨?_, ?_, ?_⟩
  · exact (handleResponse_settlement exPendingBridge
      { type := "imageResponse", requestId := "r1", success := true,
        imageData := some "data:image/png;base64,AAAA", error := none }
      { timeout := "r1", prompt := "a cat", folderPath := "/out" }
      (by decide)).1 rfl rfl
  · exact ((handleResponse_settlement exPendingBridge
      { type := "imageResponse", requestId := "r1", success := false,
        imageData := none, error := some "boom" }
      { timeout := "r1", prompt := "a cat", folderPath := "/out" }
      (by decide)).2 (Or.inl rfl)).1 "boom" rfl (by decide)
  · exact ((handleResponse_settlement exPendingBridge
      { type := "imageResponse", requestId := "r1", success := false,
        imageData := none, error := some "" }
      { timeout := "r1", prompt := "a cat", folderPath := "/out" }
      (by decide)).2 (Or.inl rfl)).2 (Or.inr rfl)

/-! ### Claim C6 -/

/-- Counterexample to C6 as stated: the fan-out JSON object built by
`sendImageRequest` has exactly the fields `type`, `requestId`, `prompt`
and `timestamp`; it carries neither an `aspectRatio` nor an `imageCount`
field.  Shown on a concrete accepted request with one connected worker. -/
theorem fanout_missingFields_counterexample :
    (requestImage "a cat" "/out" "r1" 5 exOneClientBridge).2.sentMessages =
      [("c1", { type := "requestImage", requestId := "r1", prompt := "a cat",
                timestamp := 5 })] ∧
    "aspectRatio" ∉ fanoutMessageFields ∧ "imageCount" ∉ fanoutMessageFields := by
  decide

/-- Claim C6 (amended: the message has exactly the fields `type`
(`"requestImage"`), `requestId`, `prompt` and `timestamp` in milliseconds
— no `aspectRatio`, no `imageCount`): every accepted `requestImage` call
sends that message to every member of the current connection set. -/
theorem fanout_message_exact (s : BridgeState) (prompt folderPath requestId : String)
    (timestamp : Nat) (h : s.wsConnections ≠ []) :
    (requestImage prompt folderPath requestId timestamp s).2.sentMessages =
      s.sentMessages ++ s.wsConnections.map (fun c =>
        (c, ({ type := "requestImage", requestId := requestId, prompt := prompt,
               timestamp := timestamp } : FanoutMessage))) ∧
    fanoutMessageFields = ["type", "requestId", "prompt", "timestamp"] := by
  refine ⟨?_, rfl⟩
  have hlen : 0 < s.wsConnections.length := by
    cases hc : s.wsConnections with
    | nil => exact absurd hc h
    | cons a l => simp [hc]
  simp [requestImage, hasConnectedClients, hlen, sendImageRequest]

/-- Witness for the amended C6 at a concrete one-worker state. -/
theorem fanout_message_exact_witness :
    (requestImage "a cat" "/out" "r1" 5 exOneClientBridge).2.sentMessages =
      exOneClientBridge.sentMessages ++ exOneClientBridge.wsConnections.map (fun c =>
        (c, ({ type := "requestImage", requestId := "r1", prompt := "a cat",
               timestamp := 5 } : FanoutMessage))) ∧
    fanoutMessageFields = ["type", "requestId", "prompt", "timestamp"] :=
  fanout_message_exact exOneClientBridge "a cat" "/out" "r1" 5 (by decide)

/-! ### Claim C10 -/

/-- Claim C10: every successful `saveImage` call writes exactly two copies
of the image — one under the process working directory, one under the
caller-supplied absolute `folderPath` — both under the identical filename
`<sanitized-prompt>_<timestamp>.<format>` (base `"image"` when the
sanitised prompt is empty), and returns
`[working-directory path, user-folder path]` in that order. -/
theorem saveImage_dualSave (prompt folderPath dataUrl cwd : String) (timestamp : Nat)
    (format : String) (data : List Nat)
    (habs : jsStartsWith folderPath "/" = true)
    (hparse : parseDataUrl dataUrl = .ok (format, data)) :
    saveImage { base64DataUrl := dataUrl, folderPath := folderPath, prompt := prompt }
        cwd timestamp =
      .ok { writes := [(joinPath cwd (saveFilename prompt timestamp format), data),
                       (joinPath folderPath (saveFilename prompt timestamp format), data)],
            savedPaths := [joinPath cwd (saveFilename prompt timestamp format),
                           joinPath folderPath (saveFilename prompt timestamp format)] } :=
  saveImage_spec prompt folderPath dataUrl cwd timestamp format data habs hparse

/-- Witness for C10 at a concrete payload. -/
theorem saveImage_dualSave_witness :
    saveImage { base64DataUrl := "data:image/png;base64,AAAA", folderPath := "/f",
                prompt := "p" } "/cwd" 7 =
      .ok { writes := [(joinPath "/cwd" (saveFilename "p" 7 "png"), [0, 0, 0]),
                       (joinPath "/f" (saveFilename "p" 7 "png"), [0, 0, 0])],
            savedPaths := [joinPath "/cwd" (saveFilename "p" 7 "png"),
                           joinPath "/f" (saveFilename "p" 7 "png")] } :=
  saveImage_dualSave "p" "/f" "data:image/png;base64,AAAA" "/cwd" 7 "png" [0, 0, 0]
    (by decide) rfl

/-! ### Claim C9 -/

/-- Counterexample to C7 as stated: the server has no `imageCount`
parameter and a request that succeeds with its one generated image saves
TWO files (two copies of the same image), not one file per generated
image, and the success report lists both paths. -/
theorem multiImage_counterexample :
    (saveImage { base64DataUrl := "data:image/png;base64,AAAA", folderPath := "/f",
                 prompt := "p" } "/cwd" 7).toOption =
      some { writes := [("/cwd/p_7.png", [0, 0, 0]), ("/f/p_7.png", [0, 0, 0])],
             savedPaths := ["/cwd/p_7.png", "/f/p_7.png"] } ∧
    ["/cwd/p_7.png", "/f/p_7.png"].length ≠ 1 ∧
    generateImage "p" "/f" "1:1"
        (.ok { success := true, imageData := some "data:image/png;base64,AAAA",
               error := none }) "/cwd" 7 =
      { text := "Image saved to:\n- /cwd/p_7.png\n- /f/p_7.png", isError := false } := by
  decide

/-- Claim C7 (amended: a request that succeeds produces exactly one
generated image saved as exactly two file copies — project root and user
folder — under the same filename, which carries no numeric index suffix
because no indexing mechanism exists, and the success report lists both
copies' paths). -/
theorem generateImage_success_report (prompt folderPath aspectRatio imageData cwd : String)
    (timestamp : Nat) (format : String) (data : List Nat)
    (habs : jsStartsWith folderPath "/" = true)
    (hparse : parseDataUrl imageData = .ok (format, data)) :
    saveImage { base64DataUrl := imageData, folderPath := folderPath, prompt := prompt }
        cwd timestamp =
      .ok { writes := [(joinPath cwd (saveFilename prompt timestamp format), data),
                       (joinPath folderPath (saveFilename prompt timestamp format), data)],
            savedPaths := [joinPath cwd (saveFilename prompt timestamp format),
                           joinPath folderPath (saveFilename prompt timestamp format)] } ∧
    generateImage prompt folderPath aspectRatio
        (.ok { success := true, imageData := some imageData, error := none })
        cwd timestamp =
      { text := "Image saved to:\n" ++ String.intercalate "\n"
          ["- " ++ joinPath cwd (saveFilename prompt timestamp format),
           "- " ++ joinPath folderPath (saveFilename prompt timestamp format)],
        isError := false } := by
  have hsave := saveImage_spec prompt folderPath imageData cwd timestamp format data
    habs hparse
  refine ⟨hsave, ?_⟩
  simp [generateImage, hsave]

/-- Witness for the amended C7 at a concrete successful request. -/
theorem generateImage_success_report_witness :
    saveImage { base64DataUrl := "data:image/png;base64,AAAA", folderPath := "/f",
                prompt := "p" } "/cwd" 7 =
      .ok { writes := [(joinPath "/cwd" (saveFilename "p" 7 "png"), [0, 0, 0]),
                       (joinPath "/f" (saveFilename "p" 7 "png"), [0, 0, 0])],
            savedPaths := [joinPath "/cwd" (saveFilename "p" 7 "png"),
                           joinPath "/f" (saveFilename "p" 7 "png")] } ∧
    generateImage "p" "/f" "1:1"
        (.ok { success := true, imageData := some "data:image/png;base64,AAAA",
               error := none }) "/cwd" 7 =
      { text := "Image saved to:\n" ++ String.intercalate "\n"
          ["- " ++ joinPath "/cwd" (saveFilename "p" 7 "png"),
           "- " ++ joinPath "/f" (saveFilename "p" 7 "png")],
        isError := false } :=
  generateImage_success_report "p" "/f" "1:1" "data:image/png;base64,AAAA" "/cwd" 7
    "png" [0, 0, 0] (by decide) rfl


/-! ### Claim C8 -/

/-- Equation: `collapseWsAux` on the empty list. -/
theorem collapseWsAux_nil (flag : Bool) : collapseWsAux flag [] = [] := rfl

/-- Equation: a whitespace character inside a run is absorbed. -/
theorem collapseWsAux_cons_true_ws (c : Char) (cs : List Char)
    (h : isJsWhitespace c = true) :
    collapseWsAux true (c :: cs) = collapseWsAux true cs := by
  simp [collapseWsAux, h]

/-- Equation: a whitespace character starting a run emits one underscore. -/
theorem collapseWsAux_cons_false_ws (c : Char) (cs : List Char)
    (h : isJsWhitespace c = true) :
    collapseWsAux false (c :: cs) = '_' :: collapseWsAux true cs := by
  simp [collapseWsAux, h]

/-- Equation: a non-whitespace character is kept and ends any run. -/
theorem collapseWsAux_cons_nonws (flag : Bool) (c : Char) (cs : List Char)
    (h : isJsWhitespace c = false) :
    collapseWsAux flag (c :: cs) = c :: collapseWsAux false cs := by
  cases flag <;> simp [collapseWsAux, h]

/-- Inside a whitespace run, further whitespace characters are absorbed. -/
theorem collapseWsAux_true_all_ws (w b : List Char)
    (hwa : ∀ c ∈ w, isJsWhitespace c = true) :
    collapseWsAux true (w ++ b) = collapseWsAux true b := by
  induction w with
  | nil => rfl
  | cons c w' ih =>
    rw [List.cons_append, collapseWsAux_cons_true_ws c _ (hwa c (List.mem_cons_self c w'))]
    exact ih (fun x hx => hwa x (List.mem_cons_of_mem c hx))

/-- After a whitespace run, the run flag no longer matters when the next
character (if any) is not whitespace. -/
theorem collapseWsAux_true_eq_false (b : List Char)
    (hb : ∀ x, b.head? = some x → isJsWhitespace x = false) :
    collapseWsAux true b = collapseWsAux false b := by
  cases b with
  | nil => rfl
  | cons x t =>
    rw [collapseWsAux_cons_nonws true x t (hb x rfl), collapseWsAux_cons_nonws false x t (hb x rfl)]

/-- A nonempty whitespace run followed by a non-whitespace character (or
the end of the string) collapses to a single underscore. -/
theorem collapseWsAux_false_run (w b : List Char) (hw : w ≠ [])
    (hwa : ∀ c ∈ w, isJsWhitespace c = true)
    (hb : ∀ x, b.head? = some x → isJsWhitespace x = false) :
    collapseWsAux false (w ++ b) = '_' :: collapseWsAux false b := by
  cases w with
  | nil => exact absurd rfl hw
  | cons c w' =>
    rw [List.cons_append, collapseWsAux_cons_false_ws c _ (hwa c (List.mem_cons_self c w')),
      collapseWsAux_true_all_ws w' b (fun x hx => hwa x (List.mem_cons_of_mem c hx)),
      collapseWsAux_true_eq_false b hb]

/-- Splitting the input at a maximal whitespace run splits the output of
`replace(/\s+/g, "_")` around exactly one underscore. -/
theorem collapseWsAux_split (a : List Char) (flag : Bool) (w b : List Char)
    (hflag : a = [] → flag = false)
    (ha : ∀ x, a.getLast? = some x → isJsWhitespace x = false)
    (hw : w ≠ []) (hwa : ∀ c ∈ w, isJsWhitespace c = true)
    (hb : ∀ x, b.head? = some x → isJsWhitespace x = false) :
    collapseWsAux flag (a ++ w ++ b) =
      collapseWsAux flag a ++ '_' :: collapseWsAux false b := by
  induction a generalizing flag with
  | nil =>
    rw [hflag rfl, List.nil_append, collapseWsAux_false_run w b hw hwa hb]
    rfl
  | cons x a' ih =>
    by_cases hx : isJsWhitespace x = true
    · have ha' : a' ≠ [] := by
        intro hnil
        subst hnil
        exact absurd (ha x rfl) (by simp [hx])
      obtain ⟨y, t, rfl⟩ := List.exists_cons_of_ne_nil ha'
      have haLast : ∀ z, (y :: t).getLast? = some z → isJsWhitespace z = false := by
        intro z hz
        exact ha z (by rw [List.getLast?_cons_cons]; exact hz)
      have ihTrue := ih true (fun h => absurd h (by simp)) haLast
      have hstep : ((x :: y :: t) ++ w ++ b) = x :: ((y :: t) ++ w ++ b) := by
        simp
      cases flag with
      | false =>
        rw [hstep, collapseWsAux_cons_false_ws x ((y :: t) ++ w ++ b) hx, ihTrue,
          collapseWsAux_cons_false_ws x (y :: t) hx]
        rfl
      | true =>
        rw [hstep, collapseWsAux_cons_true_ws x ((y :: t) ++ w ++ b) hx, ihTrue,
          collapseWsAux_cons_true_ws x (y :: t) hx]
    · have hx' : isJsWhitespace x = false := by
        cases h : isJsWhitespace x with
        | false => rfl
        | true => exact absurd h hx
      cases a' with
      | nil =>
        have hstep : (([x] : List Char) ++ w ++ b) = x :: (w ++ b) := by simp
        rw [hstep, collapseWsAux_cons_nonws flag x _ hx',
          collapseWsAux_false_run w b hw hwa hb,
          collapseWsAux_cons_nonws flag x [] hx']
        rfl
      | cons y t =>
        have haLast : ∀ z, (y :: t).getLast? = some z → isJsWhitespace z = false := by
          intro z hz
          exact ha z (by rw [List.getLast?_cons_cons]; exact hz)
        have ihFalse := ih false (fun _ => rfl) haLast
        have hstep : ((x :: y :: t) ++ w ++ b) = x :: ((y :: t) ++ w ++ b) := by
          simp
        rw [hstep, collapseWsAux_cons_nonws flag x _ hx', ihFalse,
          collapseWsAux_cons_nonws flag x (y :: t) hx']
        rfl

/-- `replace(/\s+/g, "_")` turns a maximal interior whitespace run into
exactly one underscore. -/
theorem collapseWs_split (a w b : List Char)
    (ha : ∀ x, a.getLast? = some x → isJsWhitespace x = false)
    (hw : w ≠ []) (hwa : ∀ c ∈ w, isJsWhitespace c = true)
    (hb : ∀ x, b.head? = some x → isJsWhitespace x = false) :
    collapseWs (a ++ w ++ b) = collapseWs a ++ '_' :: collapseWs b :=
  collapseWsAux_split a false w b (fun _ => rfl) ha hw hwa hb

/-- Claim C8: for every prompt string the derived filename base is
lowercase (no ASCII uppercase survives) and whitespace-free, contains no
character outside `[a-z0-9_-]`, is at most 50 characters long before the
timestamp suffix, and each maximal whitespace run of the (lowercased)
prompt is replaced by a single underscore. -/
theorem sanitizeFilename_shape (text : String) :
    (sanitizeFilename text).length ≤ 50 ∧
    (∀ c ∈ (sanitizeFilename text).data, isAllowedChar c = true) ∧
    (∀ c ∈ (sanitizeFilename text).data,
      ¬(65 ≤ c.toNat ∧ c.toNat ≤ 90) ∧ isJsWhitespace c = false) ∧
    (∀ a w b : List Char, text.data.map jsToLowerChar = a ++ w ++ b → w ≠ [] →
      (∀ c ∈ w, isJsWhitespace c = true) →
      (∀ x, a.getLast? = some x → isJsWhitespace x = false) →
      (∀ x, b.head? = some x → isJsWhitespace x = false) →
      sanitizeList text.data =
        ((collapseWs a ++ '_' :: collapseWs b).filter isAllowedChar).take 50) := by
  have hmem : ∀ c ∈ (sanitizeFilename text).data, isAllowedChar c = true := by
    intro c hc
    have h1 : c ∈ (collapseWs (text.data.map jsToLowerChar)).filter isAllowedChar :=
      List.mem_of_mem_take hc
    exact List.of_mem_filter h1
  refine ⟨?_, hmem, ?_, ?_⟩
  · show (sanitizeList text.data).length ≤ 50
    simp only [sanitizeList, List.length_take]
    exact min_le_left _ _
  · intro c hc
    have h := hmem c hc
    simp only [isAllowedChar, Bool.or_eq_true, Bool.and_eq_true, decide_eq_true_eq,
      beq_iff_eq] at h
    refine ⟨by omega, Bool.eq_false_iff.mpr fun htrue => ?_⟩
    simp only [isJsWhitespace, Bool.or_eq_true, Bool.and_eq_true, decide_eq_true_eq,
      beq_iff_eq] at htrue
    omega
  · intro a w b hsplit hw hwa ha hb
    show ((collapseWs (text.data.map jsToLowerChar)).filter isAllowedChar).take 50 = _
    rw [hsplit, collapseWs_split a w b ha hw hwa hb]

/-- Witness for C8 on the concrete prompt `"A  Sunset!"`. -/
theorem sanitizeFilename_shape_witness :
    (sanitizeFilename "A  Sunset!").length ≤ 50 ∧
    isAllowedChar 'a' = true ∧
    sanitizeList "A  Sunset!".data =
      ((collapseWs ['a'] ++ '_' :: collapseWs ['s', 'u', 'n', 's', 'e', 't', '!']).filter
          isAllowedChar).take 50 :=
  ⟨(sanitizeFilename_shape "A  Sunset!").1,
   (sanitizeFilename_shape "A  Sunset!").2.1 'a' (by decide),
   (sanitizeFilename_shape "A  Sunset!").2.2.2 ['a'] [' ', ' ']
     ['s', 'u', 'n', 's', 'e', 't', '!'] (by decide) (by decide) (by decide) (by decide)
     (by decide)⟩

/-! ### Map and state-invariant lemmas for the bridge -/

/-- A successful lookup is a member of the association list. -/
theorem mapLookup_mem {k : String} {p : PendingRequest} :
    ∀ {l : List (String × PendingRequest)}, mapLookup k l = some p → (k, p) ∈ l := by
  intro l
  induction l with
  | nil => intro h; exact absurd h (by simp [mapLookup])
  | cons kv rest ih =>
    intro h
    by_cases hk : (kv.1 == k) = true
    · have hp : kv.2 = p := by
        have := h
        simp only [mapLookup, hk, if_pos, Option.some.injEq] at this
        exact this
      have hkk : kv.1 = k := by simpa using hk
      have hkv : kv = (k, p) := by
        cases kv
        simp only at hkk hp
        simp [hkk, hp]
      rw [hkv] at *
      exact List.mem_cons_self _ _
    · have h' : mapLookup k rest = some p := by
        simpa [mapLookup, hk] using h
      exact List.mem_cons_of_mem kv (ih h')

/-- Deleting a key removes it from lookup. -/
theorem mapLookup_mapErase_self (k : String) (l : List (String × PendingRequest)) :
    mapLookup k (mapErase k l) = none := by
  induction l with
  | nil => rfl
  | cons kv rest ih =>
    by_cases hk : (kv.1 == k) = true
    · simpa [mapErase, List.filter_cons, hk] using ih
    · simp only [mapErase, List.filter_cons, hk] at ih ⊢
      simpa [mapLookup, hk] using ih

/-- Deleting one key leaves every other key's lookup unchanged. -/
theorem mapLookup_mapErase_ne {k k2 : String} (h : ¬ k = k2)
    (l : List (String × PendingRequest)) :
    mapLookup k (mapErase k2 l) = mapLookup k l := by
  induction l with
  | nil => rfl
  | cons kv rest ih =>
    by_cases hk : (kv.1 == k2) = true
    · have hk' : (kv.1 == k) = false := by
        have : kv.1 = k2 := by simpa using hk
        exact beq_eq_false_iff_ne.mpr (by rw [this]; intro hh; exact h hh.symm)
      simp only [mapErase, List.filter_cons, hk, Bool.not_true, if_neg,
        Bool.false_eq_true, not_false_eq_true]
      simp only [mapErase] at ih
      rw [ih, mapLookup, hk', if_neg (by simp)]
    · simp only [mapErase, List.filter_cons, hk, Bool.not_false, if_pos]
      simp only [mapErase] at ih
      by_cases hkk : (kv.1 == k) = true
      · simp [mapLookup, hkk]
      · simp only [mapLookup, hkk, Bool.false_eq_true, if_neg, not_false_eq_true]
        exact ih

/-- An absent key stays absent after any deletion. -/
theorem mapLookup_mapErase_none {k k2 : String} {l : List (String × PendingRequest)}
    (h : mapLookup k l = none) : mapLookup k (mapErase k2 l) = none := by
  by_cases hk : k = k2
  · subst hk; exact mapLookup_mapErase_self k l
  · rw [mapLookup_mapErase_ne hk l]; exact h

/-- Members of the map after a deletion were members before. -/
theorem mapErase_mem {kv : String × PendingRequest} {k : String}
    {l : List (String × PendingRequest)} (h : kv ∈ mapErase k l) : kv ∈ l :=
  List.mem_of_mem_filter h

/-- The key-to-timer-token invariant: every pending entry's timer token is
its own request id (established by `requestImage`, which arms the timer it
stores). -/
def TimersKeyed (s : BridgeState) : Prop :=
  ∀ kv ∈ s.pendingRequests, kv.2.timeout = kv.1

instance (s : BridgeState) : Decidable (TimersKeyed s) := by
  unfold TimersKeyed
  infer_instance

/-- `stepEvent` never changes the configured timeout duration. -/
theorem stepEvent_requestTimeout (s : BridgeState) (e : BridgeEvent) :
    (stepEvent s e).requestTimeout = s.requestTimeout := by
  cases e with
  | response r =>
    simp only [stepEvent, handleImageResponse]
    cases hm : mapLookup r.requestId s.pendingRequests with
    | none => rfl
    | some p => by_cases hok : (r.success && jsTruthyOpt r.imageData) = true <;> simp [hok]
  | timerFire t =>
    simp only [stepEvent, fireTimeout]
    split <;> rfl

/-- `stepEvent` preserves distinctness of the armed timer tokens. -/
theorem stepEvent_timers_nodup (s : BridgeState) (e : BridgeEvent)
    (h : s.activeTimers.Nodup) : (stepEvent s e).activeTimers.Nodup := by
  cases e with
  | response r =>
    simp only [stepEvent, handleImageResponse]
    cases hm : mapLookup r.requestId s.pendingRequests with
    | none => exact h
    | some p =>
      by_cases hok : (r.success && jsTruthyOpt r.imageData) = true <;>
        simp [hok, h.erase]
  | timerFire t =>
    simp only [stepEvent, fireTimeout]
    split
    · exact h.erase t
    · exact h

/-- `stepEvent` preserves the key-to-timer-token invariant. -/
theorem stepEvent_timersKeyed (s : BridgeState) (e : BridgeEvent)
    (h : TimersKeyed s) : TimersKeyed (stepEvent s e) := by
  cases e with
  | response r =>
    simp only [stepEvent, handleImageResponse]
    cases hm : mapLookup r.requestId s.pendingRequests with
    | none => exact h
    | some p =>
      by_cases hok : (r.success && jsTruthyOpt r.imageData) = true <;>
        · simp only [hok, if_pos, Bool.false_eq_true, if_neg, not_false_eq_true]
          intro kv hkv
          exact h kv (mapErase_mem hkv)
  | timerFire t =>
    simp only [stepEvent, fireTimeout]
    split
    · intro kv hkv
      exact h kv (mapErase_mem hkv)
    · exact h

/-- A non-qualifying event (a response for a different id, or another
request's timer) does not touch the given request: its pending entry, its
armed timer and its settlements are unchanged. -/
theorem stepEvent_nonqual (s : BridgeState) (rid : String) (e : BridgeEvent)
    (hwf : TimersKeyed s) (hne : isQualifying rid e = false) :
    mapLookup rid (stepEvent s e).pendingRequests = mapLookup rid s.pendingRequests ∧
    (rid ∈ (stepEvent s e).activeTimers ↔ rid ∈ s.activeTimers) ∧
    settlementsFor rid (stepEvent s e) = settlementsFor rid s := by
  cases e with
  | response r =>
    have hner : (r.requestId == rid) = false := by simpa [isQualifying] using hne
    have hner' : ¬ rid = r.requestId := by
      intro h
      subst h
      simp at hner
    cases hm : mapLookup r.requestId s.pendingRequests with
    | none => simp [stepEvent, handleImageResponse, hm]
    | some p =>
      have htok : p.timeout = r.requestId := hwf (r.requestId, p) (mapLookup_mem hm)
      by_cases hok : (r.success && jsTruthyOpt r.imageData) = true
      · simp only [stepEvent, handleImageResponse, hm, hok, if_pos]
        refine ⟨mapLookup_mapErase_ne hner' _, ?_, ?_⟩
        · rw [htok]
          exact List.mem_erase_of_ne hner'
        · simp [settlementsFor, List.filter_append, hner]
      · simp only [stepEvent, handleImageResponse, hm, hok, Bool.false_eq_true, if_neg,
          not_false_eq_true]
        refine ⟨mapLookup_mapErase_ne hner' _, ?_, ?_⟩
        · rw [htok]
          exact List.mem_erase_of_ne hner'
        · simp [settlementsFor, List.filter_append, hner]
  | timerFire t =>
    have hnet : (t == rid) = false := by simpa [isQualifying] using hne
    have hnet' : ¬ rid = t := by
      intro h
      subst h
      simp at hnet
    simp only [stepEvent, fireTimeout]
    split
    · refine ⟨mapLookup_mapErase_ne hnet' _, List.mem_erase_of_ne hnet', ?_⟩
      simp [settlementsFor, List.filter_append, hnet]
    · exact ⟨rfl, Iff.rfl, rfl⟩

/-- Once a request is gone (no pending entry, no armed timer), no further
event of any kind can settle it again or re-create it. -/
theorem runEvents_dead (rid : String) (evs : List BridgeEvent) :
    ∀ s : BridgeState, TimersKeyed s →
      mapLookup rid s.pendingRequests = none → rid ∉ s.activeTimers →
      settlementsFor rid (runEvents s evs) = settlementsFor rid s ∧
      mapLookup rid (runEvents s evs).pendingRequests = none ∧
      rid ∉ (runEvents s evs).activeTimers := by
  induction evs with
  | nil =>
    intro s _ h1 h2
    exact ⟨rfl, h1, h2⟩
  | cons e rest ih =>
    intro s hwf h1 h2
    have hstep : settlementsFor rid (stepEvent s e) = settlementsFor rid s ∧
        mapLookup rid (stepEvent s e).pendingRequests = none ∧
        rid ∉ (stepEvent s e).activeTimers := by
      cases e with
      | response r =>
        by_cases heq : r.requestId = rid
        · subst heq
          simp [stepEvent, handleImageResponse, h1, h2]
        · cases hm : mapLookup r.requestId s.pendingRequests with
          | none => simp [stepEvent, handleImageResponse, hm, h1, h2]
          | some p =>
            have hner : (r.requestId == rid) = false := by
              simpa using heq
            by_cases hok : (r.success && jsTruthyOpt r.imageData) = true
            · simp only [stepEvent, handleImageResponse, hm, hok, if_pos]
              refine ⟨by simp [settlementsFor, List.filter_append, hner],
                mapLookup_mapErase_none h1, ?_⟩
              intro hmem
              exact h2 (List.erase_subset _ _ hmem)
            · simp only [stepEvent, handleImageResponse, hm, hok, Bool.false_eq_true,
                if_neg, not_false_eq_true]
              refine ⟨by simp [settlementsFor, List.filter_append, hner],
                mapLookup_mapErase_none h1, ?_⟩
              intro hmem
              exact h2 (List.erase_subset _ _ hmem)
      | timerFire t =>
        by_cases hmem : t ∈ s.activeTimers
        · have hnet : (t == rid) = false := by
            have : ¬ t = rid := fun h => h2 (h ▸ hmem)
            simpa using this
          simp only [stepEvent, fireTimeout, hmem, if_pos]
          refine ⟨by simp [settlementsFor, List.filter_append, hnet],
            mapLookup_mapErase_none h1, ?_⟩
          intro hmem'
          exact h2 (List.erase_subset _ _ hmem')
        · simp only [stepEvent, fireTimeout, hmem, if_neg, not_false_eq_true]
          exact ⟨trivial, h1, h2⟩
    obtain ⟨hs1, hs2, hs3⟩ := hstep
    have hrest := ih (stepEvent s e) (stepEvent_timersKeyed s e hwf) hs2 hs3
    have hrun : runEvents s (e :: rest) = runEvents (stepEvent s e) rest := rfl
    rw [hrun]
    exact ⟨by rw [hrest.1, hs1], hrest.2.1, hrest.2.2⟩

/-- A qualifying event settles a live request immediately: the settlement
the source produces is appended, the pending entry is removed and the
timer is disarmed. -/
theorem stepEvent_qual (s : BridgeState) (rid : String) (p : PendingRequest)
    (e : BridgeEvent)
    (hp : mapLookup rid s.pendingRequests = some p)
    (htok : p.timeout = rid) (hnd : s.activeTimers.Nodup) (ht : rid ∈ s.activeTimers)
    (hq : isQualifying rid e = true) :
    (stepEvent s e).settlements =
      s.settlements ++ [(rid, settlementOfEvent s.requestTimeout e)] ∧
    mapLookup rid (stepEvent s e).pendingRequests = none ∧
    rid ∉ (stepEvent s e).activeTimers := by
  cases e with
  | response r =>
    have hreq : r.requestId = rid := by simpa [isQualifying] using hq
    subst hreq
    by_cases hok : (r.success && jsTruthyOpt r.imageData) = true
    · simp only [stepEvent, handleImageResponse, hp, hok, if_pos, settlementOfEvent,
        settlementOfResponse]
      exact ⟨trivial, mapLookup_mapErase_self _ _, htok ▸ hnd.not_mem_erase⟩
    · simp only [stepEvent, handleImageResponse, hp, hok, Bool.false_eq_true, if_neg,
        not_false_eq_true, settlementOfEvent, settlementOfResponse]
      exact ⟨trivial, mapLookup_mapErase_self _ _, htok ▸ hnd.not_mem_erase⟩
  | timerFire t =>
    have hteq : t = rid := by simpa [isQualifying] using hq
    subst hteq
    simp only [stepEvent, fireTimeout, ht, if_pos, settlementOfEvent]
    exact ⟨trivial, mapLookup_mapErase_self _ _, hnd.not_mem_erase⟩

/-! ### Claim C1 -/

/-- Claim C1: for a pending request with its timeout armed, delivering any
number (in particular N ≥ 2) of response envelopes carrying its id, in
any interleaving with its timeout firing and with arbitrary other
traffic, settles the request's future exactly once; the settlement is the
one produced by the first qualifying event in delivery order (first
response, or the timer expiry if it comes first), every later qualifying
event is a no-op, and afterwards the request is gone and its timer is
disarmed. -/
theorem bridge_at_most_once (s : BridgeState) (rid : String) (p : PendingRequest)
    (events : List BridgeEvent) (e : BridgeEvent)
    (hp : mapLookup rid s.pendingRequests = some p)
    (htok : p.timeout = rid)
    (hwf : TimersKeyed s)
    (hnd : s.activeTimers.Nodup)
    (ht : rid ∈ s.activeTimers)
    (hs : settlementsFor rid s = [])
    (hdup : 2 ≤ (events.filter (isRidResponse rid)).length)
    (hfind : events.find? (isQualifying rid) = some e) :
    settlementsFor rid (runEvents s events) =
      [(rid, settlementOfEvent s.requestTimeout e)] ∧
    mapLookup rid (runEvents s events).pendingRequests = none ∧
    rid ∉ (runEvents s events).activeTimers := by
  clear hdup
  induction events generalizing s p with
  | nil => exact absurd hfind (by simp)
  | cons ev rest ih =>
    by_cases hq : isQualifying rid ev = true
    · have he : ev = e := by
        rw [List.find?_cons_of_pos rest hq] at hfind
        exact Option.some.inj hfind
      subst he
      obtain ⟨h1, h2, h3⟩ := stepEvent_qual s rid p ev hp htok hnd ht hq
      have hrun : runEvents s (ev :: rest) = runEvents (stepEvent s ev) rest := rfl
      have hdead := runEvents_dead rid rest (stepEvent s ev)
        (stepEvent_timersKeyed s ev hwf) h2 h3
      rw [hrun]
      refine ⟨?_, hdead.2.1, hdead.2.2⟩
      rw [hdead.1]
      show List.filter _ (stepEvent s ev).settlements = _
      rw [h1, List.filter_append]
      have hsf : List.filter (fun kv => kv.1 == rid) s.settlements = [] := hs
      rw [hsf]
      simp
    · have hqf : isQualifying rid ev = false := by
        cases hqq : isQualifying rid ev with
        | false => rfl
        | true => exact absurd hqq hq
      have hfind' : rest.find? (isQualifying rid) = some e := by
        rw [List.find?_cons_of_neg rest (by simp [hqf])] at hfind
        exact hfind
      obtain ⟨hL1, hL2, hL3⟩ := stepEvent_nonqual s rid ev hwf hqf
      have hp' : mapLookup rid (stepEvent s ev).pendingRequests = some p := by
        rw [hL1]; exact hp
      have hrest := ih (stepEvent s ev) p hp' htok (stepEvent_timersKeyed s ev hwf)
        (stepEvent_timers_nodup s ev hnd) (hL2.mpr ht) (by rw [hL3]; exact hs) hfind'
      rw [stepEvent_requestTimeout s ev] at hrest
      exact hrest

/-- Witness for C1: two responses for `"r1"` interleaved with its timer
fire and foreign traffic; the first response wins, the rest are no-ops. -/
theorem bridge_at_most_once_witness :
    settlementsFor "r1" (runEvents exPendingBridge
      [.response { type := "imageResponse", requestId := "zz", success := true,
                   imageData := some "x", error := none },
       .response { type := "imageResponse", requestId := "r1", success := true,
                   imageData := some "data:image/png;base64,AAAA", error := none },
       .timerFire "r1",
       .response { type := "imageResponse", requestId := "r1", success := false,
                   imageData := none, error := some "late" }]) =
      [("r1", settlementOfEvent 60000
        (.response { type := "imageResponse", requestId := "r1", success := true,
                     imageData := some "data:image/png;base64,AAAA", error := none }))] ∧
    mapLookup "r1" (runEvents exPendingBridge
      [.response { type := "imageResponse", requestId := "zz", success := true,
                   imageData := some "x", error := none },
       .response { type := "imageResponse", requestId := "r1", success := true,
                   imageData := some "data:image/png;base64,AAAA", error := none },
       .timerFire "r1",
       .response { type := "imageResponse", requestId := "r1", success := false,
                   imageData := none, error := some "late" }]).pendingRequests = none ∧
    "r1" ∉ (runEvents exPendingBridge
      [.response { type := "imageResponse", requestId := "zz", success := true,
                   imageData := some "x", error := none },
       .response { type := "imageResponse", requestId := "r1", success := true,
                   imageData := some "data:image/png;base64,AAAA", error := none },
       .timerFire "r1",
       .response { type := "imageResponse", requestId := "r1", success := false,
                   imageData := none, error := some "late" }]).activeTimers :=
  bridge_at_most_once exPendingBridge "r1"
    { timeout := "r1", prompt := "a cat", folderPath := "/out" }
    [.response { type := "imageResponse", requestId := "zz", success := true,
                 imageData := some "x", error := none },
     .response { type := "imageResponse", requestId := "r1", success := true,
                 imageData := some "data:image/png;base64,AAAA", error := none },
     .timerFire "r1",
     .response { type := "imageResponse", requestId := "r1", success := false,
                 imageData := none, error := some "late" }]
    (.response { type := "imageResponse", requestId := "r1", success := true,
                 imageData := some "data:image/png;base64,AAAA", error := none })
    (by decide) (by decide) (by decide) (by decide) (by decide) (by decide) (by decide)
    (by decide)

/-! ### Claim C4 -/

/-- Anything in the timer set after the shutdown loop was armed before. -/
theorem foldl_erase_subset (ps : List (String × PendingRequest)) :
    ∀ (ts : List String) (x : String),
      x ∈ ps.foldl (fun acc kv => acc.erase kv.2.timeout) ts → x ∈ ts := by
  induction ps with
  | nil =>
    intro ts x h
    exact h
  | cons kv rest ih =>
    intro ts x h
    exact List.erase_subset _ _ (ih (ts.erase kv.2.timeout) x h)

/-- The shutdown loop cancels the timer of every pending request. -/
theorem foldl_erase_not_mem (ps : List (String × PendingRequest)) :
    ∀ (ts : List String), ts.Nodup → ∀ kv ∈ ps,
      kv.2.timeout ∉ ps.foldl (fun acc kv => acc.erase kv.2.timeout) ts := by
  induction ps with
  | nil =>
    intro ts _ kv hkv
    exact absurd hkv (List.not_mem_nil kv)
  | cons kv0 rest ih =>
    intro ts hnd kv hkv
    rcases List.mem_cons.mp hkv with heq | hmem
    · subst heq
      intro hbad
      exact hnd.not_mem_erase (foldl_erase_subset rest (ts.erase kv.2.timeout) _ hbad)
    · exact ih (ts.erase kv0.2.timeout) (hnd.erase _) kv hmem

/-- Claim C4: shutting the bridge down with K pending requests rejects all
K futures (with `"Bridge shutting down"`), cancels every outstanding
timeout — so that no timer can fire afterwards, its firing is a no-op —
and leaves the pending map empty; every pending request gets a settlement,
none is dropped silently. -/
theorem shutdown_settles_all (s : BridgeState)
    (hkeyed : TimersKeyed s) (hnd : s.activeTimers.Nodup) :
    (clearPendingRequests s).pendingRequests = [] ∧
    (clearPendingRequests s).settlements = s.settlements ++
      s.pendingRequests.map (fun kv => (kv.1, Settlement.rejected "Bridge shutting down")) ∧
    (∀ kv ∈ s.pendingRequests,
      (kv.1, Settlement.rejected "Bridge shutting down") ∈
        (clearPendingRequests s).settlements) ∧
    (∀ kv ∈ s.pendingRequests, kv.1 ∉ (clearPendingRequests s).activeTimers) ∧
    (∀ kv ∈ s.pendingRequests,
      fireTimeout kv.1 (clearPendingRequests s) = clearPendingRequests s) := by
  have hnot : ∀ kv ∈ s.pendingRequests, kv.1 ∉ (clearPendingRequests s).activeTimers := by
    intro kv hkv
    have h := foldl_erase_not_mem s.pendingRequests s.activeTimers hnd kv hkv
    rw [hkeyed kv hkv] at h
    exact h
  refine ⟨rfl, rfl, ?_, hnot, ?_⟩
  · intro kv hkv
    exact List.mem_append_right _ (List.mem_map_of_mem _ hkv)
  · intro kv hkv
    simp [fireTimeout, hnot kv hkv]

/-- Witness for C4 on a state with two pending requests. -/
theorem shutdown_settles_all_witness :
    (clearPendingRequests
      { pendingRequests := [("r1", { timeout := "r1", prompt := "a", folderPath := "/a" }),
                            ("r2", { timeout := "r2", prompt := "b", folderPath := "/b" })],
        wsConnections := ["c1"], activeTimers := ["r1", "r2"],
        settlements := [], sentMessages := [], requestTimeout := 60000 }).pendingRequests = [] ∧
    ("r1", Settlement.rejected "Bridge shutting down") ∈
      (clearPendingRequests
        { pendingRequests := [("r1", { timeout := "r1", prompt := "a", folderPath := "/a" }),
                              ("r2", { timeout := "r2", prompt := "b", folderPath := "/b" })],
          wsConnections := ["c1"], activeTimers := ["r1", "r2"],
          settlements := [], sentMessages := [], requestTimeout := 60000 }).settlements ∧
    fireTimeout "r2"
      (clearPendingRequests
        { pendingRequests := [("r1", { timeout := "r1", prompt := "a", folderPath := "/a" }),
                              ("r2", { timeout := "r2", prompt := "b", folderPath := "/b" })],
          wsConnections := ["c1"], activeTimers := ["r1", "r2"],
          settlements := [], sentMessages := [], requestTimeout := 60000 }) =
      clearPendingRequests
        { pendingRequests := [("r1", { timeout := "r1", prompt := "a", folderPath := "/a" }),
                              ("r2", { timeout := "r2", prompt := "b", folderPath := "/b" })],
          wsConnections := ["c1"], activeTimers := ["r1", "r2"],
          settlements := [], sentMessages := [], requestTimeout := 60000 } :=
  ⟨(shutdown_settles_all _ (by decide) (by decide)).1,
   (shutdown_settles_all _ (by decide) (by decide)).2.2.1
     ("r1", { timeout := "r1", prompt := "a", folderPath := "/a" }) (by decide),
   (shutdown_settles_all _ (by decide) (by decide)).2.2.2.2
     ("r2", { timeout := "r2", prompt := "b", folderPath := "/b" }) (by decide)⟩
